import Mathlib

/-!
Verification of the Optio script-factory / network-scanner contracts.

The frontend source (src/frontend/src/lib/utils.ts, lib/commands.ts,
types/index.ts) is embedded shallowly below.  JavaScript strings are
modelled as `List Char`; JavaScript numbers appearing in the embedded
code are integers in every reachable use, so they are modelled as
`Int`/`Nat` with the relevant JS quirks (`parseInt` prefix parsing,
`slice` index clamping) reproduced explicitly.

The Rust backend (validate_config, validate_scan_target,
generate_agent_script, the script renderer, the scan-job executor and
the asset reconciler) is not part of the available sources; components
of it needed by the claims are modelled from the specification, each
marked `Modelled from the spec:` in its doc comment.
-/

namespace Optio

/-! ### JavaScript string / number primitives -/

/-- JavaScript `String.prototype.split` with a single-character
separator: splits on every occurrence, keeping empty fields
(`"".split(".") = [""]`, `"a..b".split(".") = ["a","","b"]`). -/
def splitOnChar (sep : Char) : List Char → List (List Char)
  | [] => [[]]
  | c :: cs =>
    if c = sep then
      [] :: splitOnChar sep cs
    else
      match splitOnChar sep cs with
      | [] => [[c]]
      | r :: rs => (c :: r) :: rs

/-- Characters `parseInt` skips as leading whitespace. -/
def isJsWhitespace (c : Char) : Bool :=
  c = ' ' || c = '\t' || c = '\n' || c = '\r' || c.toNat = 11 || c.toNat = 12

/-- Value of a (non-empty) list of decimal digits. -/
def digitsToNat (ds : List Char) : Nat :=
  ds.foldl (fun acc c => acc * 10 + (c.toNat - 48)) 0

/-- Longest leading run of decimal digits, `none` when there is none
(JS `NaN`). -/
def parseDigitPrefix (cs : List Char) : Option Nat :=
  let ds := cs.takeWhile (·.isDigit)
  if ds.isEmpty then none else some (digitsToNat ds)

/-- JavaScript `parseInt(s, 10)`: skip leading whitespace, accept an
optional sign, then read the longest decimal-digit prefix, ignoring
everything after it; `none` models `NaN`. -/
def jsParseInt (s : List Char) : Option Int :=
  match s.dropWhile isJsWhitespace with
  | '-' :: rest => (parseDigitPrefix rest).map (fun n => -(n : Int))
  | '+' :: rest => (parseDigitPrefix rest).map (fun n => (n : Int))
  | rest => (parseDigitPrefix rest).map (fun n => (n : Int))

/-- JavaScript `String.prototype.slice(start, end)`: negative indices
count from the end, both indices are clamped to `[0, length]`, and an
empty string results when the normalized end does not exceed the
normalized start. -/
def jsSlice (l : List Char) (start stop : Int) : List Char :=
  let len : Int := l.length
  let s := if start < 0 then max (len + start) 0 else min start len
  let t := if stop < 0 then max (len + stop) 0 else min stop len
  (l.take t.toNat).drop s.toNat

/-! ### Source-translated functions (src/frontend/src/lib/utils.ts) -/

/-- Source function `isValidIp` (utils.ts:49-56): split on `'.'`, require exactly four
components, and accept when `parseInt(octet, 10)` yields a number in
`[0, 255]` for each component. -/
def isValidIp (ip : List Char) : Bool :=
  let octets := splitOnChar '.' ip
  octets.length = 4 &&
    octets.all (fun octet =>
      match jsParseInt octet with
      | none => false
      | some num => 0 ≤ num && num ≤ 255)

/-- Source function `isValidSubnet` (utils.ts:61-69): split on `'/'`, require exactly
two parts, require `parseInt(parts[1], 10)` in `[0, 32]`, and require
`isValidIp(parts[0])`. -/
def isValidSubnet (subnet : List Char) : Bool :=
  match splitOnChar '/' subnet with
  | [a, b] =>
    (match jsParseInt b with
     | none => false
     | some prefixLen => 0 ≤ prefixLen && prefixLen ≤ 32) && isValidIp a
  | _ => false

/-- Source function `truncate` (utils.ts:74-77): return the string unchanged when its
length is at most `maxLength`, otherwise `str.slice(0, maxLength - 3)`
followed by `"..."`. -/
def truncate (str : List Char) (maxLength : Int) : List Char :=
  if (str.length : Int) ≤ maxLength then str
  else jsSlice str 0 (maxLength - 3) ++ ['.', '.', '.']

/-! ### Scan target validation (spec §4.4) -/

/-- Source type `TargetValidation` (types/index.ts:633-638). -/
structure TargetValidation where
  valid : Bool
  targetType : Option String
  normalized : Option String
  error : Option String
deriving DecidableEq, Repr

/-- Modelled from the spec: the backend `validate_scan_target` command
(§4.4) is absent from src/; only its binding (lib/commands.ts
`validateScanTarget`) and result type are present.  Per the spec it
rejects empty input, classifies input containing `'/'` as a CIDR block
(accepted exactly when the frontend's `isValidSubnet` check passes,
i.e. prefix 0-32 on a valid dotted quad), classifies a valid IPv4
address as a host, and accepts anything else as a hostname whose
resolution is deferred to probe time — always returning the structured
result, with a human-readable error whenever `valid` is false. -/
def validateTarget (text : List Char) : TargetValidation :=
  if text = [] then
    ⟨false, none, none, some ("Target must not be empty")⟩
  else if text.any (· = '/') then
    if isValidSubnet text then
      ⟨true, some ("cidr"), some ⟨text⟩, none⟩
    else
      ⟨false, none, none, some ("Invalid CIDR block: expected a.b.c.d/prefix with prefix 0-32")⟩
  else if isValidIp text then
    ⟨true, some ("host"), some ⟨text⟩, none⟩
  else
    ⟨true, some ("host"), some ⟨text⟩, none⟩

/-! ### Script configuration validation (spec §4.2) -/

/-- Source type `ValidationResult` (types/index.ts:89-93). -/
structure ValidationResult where
  valid : Bool
  errors : List String
  warnings : List String
deriving DecidableEq, Repr

/-- Source type `TemplateInfo` (types/index.ts:68-74). -/
structure TemplateInfo where
  name : String
  description : String
  category : String
  requiredVars : List String
  path : String
deriving DecidableEq, Repr

/-- Modelled from the spec: the backend derives, from a
`ScriptConfigOptions` record, the bag of template-variable values to
be interpolated plus the DNS server list; that derivation is backend
code absent from src/, so the variable-injection layer's view of a
configuration is represented directly as a name/value list together
with the DNS servers. -/
structure ConfigModel where
  vars : List (String × String)
  dnsServers : List String
deriving DecidableEq, Repr

/-- Value supplied for a variable name, `none` when absent. -/
def lookupVar (cfg : ConfigModel) (name : String) : Option String :=
  (cfg.vars.find? (fun p => p.1 = name)).map (fun p => p.2)

/-- True when the configuration supplies a non-empty value for the
variable name. -/
def hasNonEmptyValue (cfg : ConfigModel) (name : String) : Bool :=
  match lookupVar cfg name with
  | none => false
  | some value => !value.data.isEmpty

/-- True when the value contains a character able to break out of the
intended shell quoting context: an embedded double or single quote, a
backtick, or a `$(` command substitution (spec §4.2). -/
def hasUnsafeShellChars (v : String) : Bool :=
  v.data.any (fun c => c.toNat = 34 || c.toNat = 39 || c.toNat = 96) ||
    (v.data.zip v.data.tail).any (fun p => p.1 = '$' && p.2 = '(')

/-- Required variables of the template that are missing from the
configuration or supplied with an empty value. -/
def missingRequiredVars (tmpl : TemplateInfo) (cfg : ConfigModel) : List String :=
  tmpl.requiredVars.filter (fun v => !hasNonEmptyValue cfg v)

/-- Length bound the spec imposes on the client name (§4.2, "within a
length bound"); the bound itself is backend policy absent from src/. -/
def maxClientNameLength : Nat := 64

/-- Modelled from the spec: the error rules of the backend
`validate_config` command (§4.2), absent from src/; only its binding
(lib/commands.ts `validateConfig`) and result type are present.
Rules per the spec: client name non-empty and within a length bound;
target subnet must parse as CIDR; every required variable declared by
the template must have a non-empty value (missing → error naming the
variable, not a warning); values destined for shell interpolation are
rejected with an error — never silently stripped — when they contain
unsafe characters; each DNS server entry must be a syntactically
valid IP. -/
def validationErrors (clientName targetSubnet : String) (tmpl : TemplateInfo)
    (cfg : ConfigModel) : List String :=
  (if clientName.data = [] then ["Client name must not be empty"]
   else if maxClientNameLength < clientName.data.length then
     ["Client name exceeds the maximum length"]
   else []) ++
  (if isValidSubnet targetSubnet.data then []
   else ["Target subnet must be a valid CIDR block"]) ++
  (missingRequiredVars tmpl cfg).map (fun v => "Missing required variable: " ++ v) ++
  (cfg.vars.filter (fun p => hasUnsafeShellChars p.2)).map
    (fun p => "Unsafe shell characters in value of variable: " ++ p.1) ++
  (cfg.dnsServers.filter (fun d => !isValidIp d.data)).map
    (fun d => "Invalid DNS server address: " ++ d)

/-- Modelled from the spec: the backend `validate_config` command
assembles the structured result — valid exactly when no rule produced
an error.  The check is advisory: it returns only a
`ValidationResult` and leaves the configuration untouched (no value
is ever sanitized or stripped). -/
def validateConfig (clientName targetSubnet : String) (tmpl : TemplateInfo)
    (cfg : ConfigModel) : ValidationResult :=
  ⟨(validationErrors clientName targetSubnet tmpl cfg).isEmpty,
    validationErrors clientName targetSubnet tmpl cfg, []⟩

/-! ### Script rendering and preview (spec §4.3) -/

/-- Fixed marker previews substitute for the generation timestamp
(spec §4.3: previews "may template-substitute with a fixed marker"). -/
def timestampMarker : String := "TIMESTAMP_PLACEHOLDER"

/-- One rendered line per configured variable. -/
def renderVarLines : List (String × String) → String
  | [] => ""
  | (n, v) :: rest => "Set-Variable " ++ n ++ " " ++ v ++ "\n" ++ renderVarLines rest

/-- Modelled from the spec: the script renderer (§4.3), absent from
src/.  It is a pure function of the template name, the configuration,
the client identity and the timestamp value to embed: it emits a
header carrying client name, target subnet and generation time,
followed by one line per configured variable. -/
def renderScript (templateName : String) (cfg : ConfigModel)
    (clientName targetSubnet timestamp : String) : String :=
  "# Template: " ++ templateName ++ "\n" ++
  "# Client: " ++ clientName ++ "\n" ++
  "# Subnet: " ++ targetSubnet ++ "\n" ++
  "# Generated: " ++ timestamp ++ "\n" ++
  renderVarLines cfg.vars

/-- Modelled from the spec: `get_script_preview` (§4.3), absent from
src/; only its binding (lib/commands.ts:53-55 `getScriptPreview`) is
present.  Preview renders with the same logic as generation but
substitutes the fixed `timestampMarker` for the clock reading `now`,
which is therefore ignored. -/
def preview (templateName : String) (cfg : ConfigModel)
    (clientName targetSubnet : String) (_now : String) : String :=
  renderScript templateName cfg clientName targetSubnet timestampMarker

/-! ### Agent script generation (spec §4.3) -/

/-- Source type `AgentScriptResponse` (types/index.ts:1007-1013). -/
structure AgentScriptResponse where
  success : Bool
  scriptContent : String
  scriptId : String
  generatedAt : String
  warnings : List String
deriving DecidableEq, Repr

/-- Source type `ErrorResponse` (types/index.ts:1051-1055). -/
structure ErrorResponse where
  code : String
  message : String
  details : Option String
deriving DecidableEq, Repr

/-- Characters allowed in a best-effort hostname. -/
def isHostnameChar (c : Char) : Bool :=
  c.isAlphanum || c = '-' || c = '.'

/-- Best-effort hostname syntax check (spec §4.4: hostnames are
accepted syntactically, resolution deferred to probe time). -/
def isHostname (s : List Char) : Bool :=
  !s.isEmpty && s.all isHostnameChar

/-- Warning reported when the engine generated the auth token itself
(spec §4.3: "report its generation as a warning"). -/
def tokenGeneratedWarning : String :=
  "Authentication token was generated by the engine; record it before distributing the script"

/-- Header of the agent script up to the embedded token. -/
def agentScriptHeader : String := "#!/bin/sh\n# Optio agent callback script\nAUTH_TOKEN=\""

/-- Remainder of the agent script after the embedded token. -/
def agentScriptTail (clientIp : String) (callbackPort : Nat) (useTls : Bool)
    (heartbeatInterval : Nat) : String :=
  "\"\nCALLBACK_IP=\"" ++ clientIp ++ "\"\nCALLBACK_PORT=" ++ toString callbackPort ++
  "\nUSE_TLS=" ++ (if useTls then ("true") else ("false")) ++
  "\nHEARTBEAT_INTERVAL=" ++ toString heartbeatInterval ++ "\n"

/-- Modelled from the spec: the backend `generate_agent_script`
command (§4.3), absent from src/; only its request/response types
(types/index.ts:999-1013) and the UI caller are present.  It fails
with `InvalidInput` when `clientIp` fails IP/hostname validation or
`callbackPort` lies outside 1-65535; otherwise, when `authToken` is
absent it uses the engine-generated token `freshToken` (drawn from the
external UUID source) and reports that via a warning, and it embeds
the chosen token verbatim in the script body.  `scriptId` and `now`
come from the external ID/clock collaborators. -/
def generateAgentScript (clientIp : String) (authToken : Option String)
    (callbackPort : Nat) (useTls : Bool) (heartbeatInterval : Nat)
    (freshToken scriptId now : String) : Except ErrorResponse AgentScriptResponse :=
  if isValidIp clientIp.data || isHostname clientIp.data then
    if 1 ≤ callbackPort ∧ callbackPort ≤ 65535 then
      let token := authToken.getD freshToken
      let warnings := match authToken with
        | none => [tokenGeneratedWarning]
        | some _ => []
      .ok ⟨true,
        agentScriptHeader ++ token ++
          agentScriptTail clientIp callbackPort useTls heartbeatInterval,
        scriptId, now, warnings⟩
    else
      .error ⟨"InvalidInput", "callbackPort must be between 1 and 65535", none⟩
  else
    .error ⟨"InvalidInput", "clientIp failed IP/hostname validation", none⟩

/-! ### Asset model and reconciliation (spec §4.7) -/

/-- Source type `Protocol` (types/index.ts:585). -/
inductive Protocol
  | tcp
  | udp
  | sctp
deriving DecidableEq, Repr

/-- Source type `PortState` (types/index.ts:577-583). -/
inductive PortState
  | opened
  | closed
  | filtered
  | unfiltered
  | openFiltered
  | closedFiltered
deriving DecidableEq, Repr

/-- Source type `AssetCategory` (types/index.ts:587-597). -/
inductive AssetCategory
  | server
  | workstation
  | networkDevice
  | securityDevice
  | printer
  | iot
  | mobile
  | virtual
  | cloud
  | unknown
deriving DecidableEq, Repr

/-- Source type `AssetCriticality` (types/index.ts:599-604). -/
inductive AssetCriticality
  | critical
  | high
  | medium
  | low
  | informational
deriving DecidableEq, Repr

/-- Source type `AssetStatus` (types/index.ts:606-611). -/
inductive AssetStatus
  | active
  | inactive
  | decommissioned
  | pending
  | maintenance
deriving DecidableEq, Repr

/-- Source type `AssetService` (types/index.ts:704-710). -/
structure AssetService where
  port : Nat
  protocol : Protocol
  name : String
  version : Option String
  state : PortState
deriving DecidableEq, Repr

/-- Source type `DiscoveredPort` (types/index.ts:676-684). -/
structure DiscoveredPort where
  port : Nat
  protocol : Protocol
  state : PortState
  service : Option String
  product : Option String
  version : Option String
  extraInfo : Option String
deriving DecidableEq, Repr

/-- Source type `OsMatch` (types/index.ts:686-692). -/
structure OsMatch where
  name : String
  accuracy : Nat
  osFamily : Option String
  osGen : Option String
  deviceType : Option String
deriving DecidableEq, Repr

/-- Source type `DiscoveredHost` (types/index.ts:694-702). -/
structure DiscoveredHost where
  ipAddress : String
  macAddress : Option String
  hostname : Option String
  vendor : Option String
  status : String
  ports : List DiscoveredPort
  osMatches : List OsMatch
deriving DecidableEq, Repr

/-- Source type `Asset` (types/index.ts:712-730); the ISO-8601 timestamp strings
are modelled as naturals so that "advance" and "never regress" are
order statements. -/
structure Asset where
  id : String
  clientId : String
  name : String
  ipAddress : String
  macAddress : Option String
  category : AssetCategory
  operatingSystem : Option String
  criticality : AssetCriticality
  status : AssetStatus
  location : Option String
  owner : Option String
  description : Option String
  services : List AssetService
  tags : List String
  firstSeen : Nat
  lastSeen : Nat
  scanIds : List String
deriving DecidableEq, Repr

/-- View of a freshly observed port as an `AssetService` record. -/
def toAssetService (p : DiscoveredPort) : AssetService :=
  ⟨p.port, p.protocol, p.service.getD ("unknown"), p.version, p.state⟩

/-- True when the observed host re-probed the (port, protocol) key of
service `s` this scan. -/
def reobserved (h : DiscoveredHost) (s : AssetService) : Bool :=
  h.ports.any (fun p => p.port = s.port && p.protocol = s.protocol)

/-- Modelled from the spec: the Asset Reconciler's merge of a
`DiscoveredHost` into an existing matched `Asset` (§4.7), absent from
src/.  Service lists are unioned by (port, protocol) key — state and
version replaced for keys seen again this scan, services not re-probed
retained — `lastSeen` advances to the scan's completion timestamp and
never regresses, `firstSeen` is untouched, the scan ID is appended
without duplication, and operator-set fields (category, criticality,
owner, tags, ...) are never overwritten. -/
def mergeHost (a : Asset) (h : DiscoveredHost) (scanTime : Nat) (scanId : String) :
    Asset :=
  { a with
    services := h.ports.map toAssetService ++
      a.services.filter (fun s => !reobserved h s),
    lastSeen := max a.lastSeen scanTime,
    scanIds := if scanId ∈ a.scanIds then a.scanIds else a.scanIds ++ [scanId] }

/-! ### Scan job status machine (spec §4.5, §5) -/

/-- Source type `ScanStatus` (types/index.ts:570-575). -/
inductive ScanStatus
  | queued
  | running
  | completed
  | failed
  | cancelled
deriving DecidableEq, Repr

/-- Modelled from the spec: the Probe Executor's status transitions
(§4.5 "queued -> running -> \x7bcompleted, failed, cancelled\x7d",
with cancellation also allowed straight from `queued`); the executor
itself is absent from src/, only the `ScanStatus` type and polling
bindings are present.  These five steps are the only transitions a
`ScanJob` ever takes. -/
inductive ScanStep : ScanStatus → ScanStatus → Prop
  | start : ScanStep .queued .running
  | complete : ScanStep .running .completed
  | failure : ScanStep .running .failed
  | cancelQueued : ScanStep .queued .cancelled
  | cancelRunning : ScanStep .running .cancelled

/-- Terminal statuses (spec §3: "terminal states are immutable"). -/
def TerminalStatus (s : ScanStatus) : Prop :=
  s = .completed ∨ s = .failed ∨ s = .cancelled

/-- A status history a single `ScanJob` can exhibit over its lifetime:
consecutive entries are related by `ScanStep`. -/
def ValidTrace (t : List ScanStatus) : Prop :=
  t.Chain' ScanStep

end Optio

namespace Optio

/-! ### Sanity checks: the embedding behaves like the JavaScript. -/

example : isValidIp ("10.0.0.1".data) = true := by decide
example : isValidIp ("10.0.0.256".data) = false := by decide
example : isValidSubnet ("10.0.0.0/24".data) = true := by decide
example : isValidSubnet ("10.0.0.0/33".data) = false := by decide
example : isValidSubnet ("".data) = false := by decide
example : truncate ("abcdef".data) 5 = "ab...".data := by decide
example : truncate ("abc".data) 5 = "abc".data := by decide

/-! ### Helper lemmas about the JS split -/

theorem splitOnChar_ne_nil (c : Char) (l : List Char) : splitOnChar c l ≠ [] := by
  induction l with
  | nil => simp [splitOnChar]
  | cons x xs ih =>
    simp only [splitOnChar]
    split
    · exact List.cons_ne_nil _ _
    · split
      · exact List.cons_ne_nil _ _
      · exact List.cons_ne_nil _ _

theorem splitOnChar_eq_single {c : Char} {l b : List Char}
    (h : splitOnChar c l = [b]) : l = b := by
  induction l generalizing b with
  | nil =>
    simp only [splitOnChar, List.cons.injEq, and_true] at h
    exact h
  | cons x xs ih =>
    simp only [splitOnChar] at h
    split at h
    · obtain ⟨hb, hnil⟩ := List.cons.inj h
      exact absurd hnil (splitOnChar_ne_nil c xs)
    · rename_i hxc
      rcases hr : splitOnChar c xs with _ | ⟨r, rs⟩
      · exact absurd hr (splitOnChar_ne_nil c xs)
      · rw [hr] at h
        obtain ⟨hb, hrs⟩ := List.cons.inj h
        subst hrs
        have := ih (b := r) hr
        subst this
        exact hb.symm ▸ rfl

theorem splitOnChar_eq_pair {c : Char} {l a b : List Char}
    (h : splitOnChar c l = [a, b]) : l = a ++ c :: b := by
  induction l generalizing a b with
  | nil => simp [splitOnChar] at h
  | cons x xs ih =>
    simp only [splitOnChar] at h
    split at h
    · rename_i hxc
      obtain ⟨ha, hxs⟩ := List.cons.inj h
      subst ha hxc
      have := splitOnChar_eq_single hxs
      subst this
      rfl
    · rename_i hxc
      rcases hr : splitOnChar c xs with _ | ⟨r, rs⟩
      · exact absurd hr (splitOnChar_ne_nil c xs)
      · rw [hr] at h
        obtain ⟨ha, hrs⟩ := List.cons.inj h
        subst ha
        subst hrs
        have := ih (a := r) (b := b) hr
        subst this
        rfl

/-! ### Claim C10 -/

/-- C10: for every string `s` and every `maxLength`, `truncate`
returns `s` unchanged when `s` has length at most `maxLength`;
otherwise, provided `maxLength ≥ 3`, it returns a string of length
exactly `maxLength` ending in `"..."` — so for all `s` and
`maxLength ≥ 3` the result's length never exceeds `maxLength`. -/
theorem truncate_bounds (s : List Char) (m : Int) :
    ((s.length : Int) ≤ m → truncate s m = s) ∧
    (3 ≤ m → m < (s.length : Int) →
      ((truncate s m).length : Int) = m ∧
      ∃ pre, truncate s m = pre ++ ['.', '.', '.']) ∧
    (3 ≤ m → ((truncate s m).length : Int) ≤ m) := by
  have hshort : (s.length : Int) ≤ m → truncate s m = s := by
    intro h
    simp [truncate, h]
  have hlong : 3 ≤ m → m < (s.length : Int) →
      ((truncate s m).length : Int) = m ∧
      ∃ pre, truncate s m = pre ++ ['.', '.', '.'] := by
    intro h3 hlen
    have hcond : ¬ ((s.length : Int) ≤ m) := by omega
    constructor
    · simp only [truncate, if_neg hcond, jsSlice, List.length_append,
        List.length_drop, List.length_take, List.length_cons, List.length_nil]
      push_cast
      omega
    · exact ⟨jsSlice s 0 (m - 3), by simp only [truncate, if_neg hcond]⟩
  refine ⟨hshort, hlong, ?_⟩
  intro h3
  by_cases hle : (s.length : Int) ≤ m
  · rw [hshort hle]
    exact hle
  · exact le_of_eq (hlong h3 (by omega)).1

/-- Witness for C10 at `s = "abcdef"`, `maxLength = 5`. -/
theorem truncate_bounds_witness :
    ((truncate ("abcdef".data) 5).length : Int) = 5 ∧
    ∃ pre, truncate ("abcdef".data) 5 = pre ++ ['.', '.', '.'] :=
  (truncate_bounds ("abcdef".data) 5).2.1 (by decide) (by decide)

/-! ### Claim C4 -/

/-- C4: refutation of the claim that every string accepted by the
single-host IPv4 validator is a well-formed dotted quad.  Because the
source `isValidIp` checks each component with JavaScript
`parseInt(octet, 10)` — which ignores trailing garbage, skips leading
whitespace and accepts a sign — it accepts `"1.2.3.4x"` (trailing
garbage), `"+1.2.3.4"` (sign character) and `"1.2.3. 4"` (embedded
whitespace), all of which the claim requires to be rejected before any
probe could be invoked against them. -/
theorem isValidIp_accepts_malformed :
    isValidIp ("1.2.3.4x".data) = true ∧
    isValidIp ("+1.2.3.4".data) = true ∧
    isValidIp ("1.2.3. 4".data) = true := by
  refine ⟨by decide, by decide, by decide⟩

/-! ### Claim C3 -/

/-- C3: scan-target validation accepts a CIDR block exactly when its
prefix parses to a value between 0 and 32: `"10.0.0.0/24"` is valid
with target type `cidr`, `"10.0.0.0/33"` is invalid, the empty string
is invalid, and in general for any input that splits on `'/'` into an
address part passing `isValidIp` and a prefix part parsing to `p`, the
target is valid iff `0 ≤ p ≤ 32`. -/
theorem validateTarget_cidr_prefix_range :
    validateTarget ("10.0.0.0/24".data) =
      ⟨true, some ("cidr"), some ("10.0.0.0/24"), none⟩ ∧
    (validateTarget ("10.0.0.0/33".data)).valid = false ∧
    (validateTarget ("".data)).valid = false ∧
    ∀ (t a b : List Char) (p : Int), splitOnChar '/' t = [a, b] →
      jsParseInt b = some p → isValidIp a = true →
      ((validateTarget t).valid = true ↔ 0 ≤ p ∧ p ≤ 32) := by
  refine ⟨by decide, by decide, by decide, ?_⟩
  intro t a b p hsplit hparse hip
  have ht : t = a ++ '/' :: b := splitOnChar_eq_pair hsplit
  have hne : t ≠ [] := by
    rw [ht]
    exact fun hcontra => by simpa using congrArg List.length hcontra
  have hslash : t.any (· = '/') = true := by
    rw [List.any_eq_true]
    exact ⟨'/', by rw [ht]; exact List.mem_append_right _ (List.mem_cons_self _ _),
      by simp⟩
  have hsubnet : isValidSubnet t = (decide (0 ≤ p) && decide (p ≤ 32)) := by
    simp only [isValidSubnet, hsplit, hparse, hip, Bool.and_true]
  have hvalid : (validateTarget t).valid = isValidSubnet t := by
    simp only [validateTarget, if_neg hne, hslash, if_true]
    by_cases hsub : isValidSubnet t
    · rw [if_pos hsub, hsub]
    · rw [if_neg hsub]
      have hf : isValidSubnet t = false := Bool.eq_false_iff.mpr hsub
      simp [hf]
  rw [hvalid, hsubnet]
  simp

/-- Witness for C3's general part at `t = "10.0.0.0/24"`, prefix 24. -/
theorem validateTarget_cidr_prefix_range_witness :
    (validateTarget ("10.0.0.0/24".data)).valid = true ↔
      0 ≤ (24 : Int) ∧ (24 : Int) ≤ 32 :=
  validateTarget_cidr_prefix_range.2.2.2 ("10.0.0.0/24".data) ("10.0.0.0".data)
    ("24".data) 24 (by decide) (by decide) (by decide)

/-! ### Claim C9 -/

/-- C9: scan-target validation is total — it is a function defined on
every input string, including the empty string and malformed CIDR
prefixes, returning a structured `TargetValidation`; whenever
`valid = false` the result carries a non-empty human-readable error
message, and whenever `valid = true` it carries none. -/
theorem validateTarget_total_structured (t : List Char) :
    ((validateTarget t).valid = false →
      ∃ msg, (validateTarget t).error = some msg ∧ msg.data ≠ []) ∧
    ((validateTarget t).valid = true → (validateTarget t).error = none) := by
  simp only [validateTarget]
  split_ifs <;>
    exact ⟨fun h => by first
        | exact ⟨_, rfl, by decide⟩
        | simp at h,
      fun h => by first
        | rfl
        | simp at h⟩

/-- Witness for C9 at the malformed input `"10.0.0.0/33"`. -/
theorem validateTarget_total_structured_witness :
    ∃ msg, (validateTarget ("10.0.0.0/33".data)).error = some msg ∧
      msg.data ≠ [] :=
  (validateTarget_total_structured ("10.0.0.0/33".data)).1 (by decide)

/-! ### Claim C8 -/

/-- C8: script preview is a deterministic, idempotent function of the
template name, config, client name and subnet — two calls with
identical arguments yield byte-identical text whatever the ambient
clock reads, because preview substitutes the fixed `timestampMarker`
for the timestamp placeholder and renders with the same logic as
generation (`renderScript`). -/
theorem preview_deterministic (templateName : String) (cfg : ConfigModel)
    (clientName targetSubnet now1 now2 : String) :
    preview templateName cfg clientName targetSubnet now1 =
      preview templateName cfg clientName targetSubnet now2 ∧
    preview templateName cfg clientName targetSubnet now1 =
      renderScript templateName cfg clientName targetSubnet timestampMarker :=
  ⟨rfl, rfl⟩

/-! ### Claim C7 -/

/-- C7: the only status transitions a `ScanJob` ever takes are
queued→running, running→completed, running→failed, queued→cancelled
and running→cancelled; terminal states are never left (in particular
no job reverts from completed to running); and a job cancelled while
still queued goes directly to cancelled — its whole status history is
`[queued, cancelled]` and running is never observed in it. -/
theorem scanStep_state_machine :
    (∀ a b : ScanStatus, ScanStep a b ↔
      ((a = .queued ∧ b = .running) ∨
       (a = .running ∧ (b = .completed ∨ b = .failed ∨ b = .cancelled)) ∨
       (a = .queued ∧ b = .cancelled))) ∧
    (∀ a b : ScanStatus, TerminalStatus a → ¬ ScanStep a b) ∧
    (¬ ScanStep .completed .running) ∧
    (∀ rest : List ScanStatus,
      ValidTrace (.queued :: .cancelled :: rest) →
        ScanStatus.running ∉ (ScanStatus.queued :: .cancelled :: rest)) := by
  have hchar : ∀ a b : ScanStatus, ScanStep a b ↔
      ((a = .queued ∧ b = .running) ∨
       (a = .running ∧ (b = .completed ∨ b = .failed ∨ b = .cancelled)) ∨
       (a = .queued ∧ b = .cancelled)) := by
    intro a b
    constructor
    · intro h
      cases h <;> simp
    · rintro (⟨rfl, rfl⟩ | ⟨rfl, rfl | rfl | rfl⟩ | ⟨rfl, rfl⟩)
      · exact .start
      · exact .complete
      · exact .failure
      · exact .cancelRunning
      · exact .cancelQueued
  have hterm : ∀ a b : ScanStatus, TerminalStatus a → ¬ ScanStep a b := by
    rintro a b (rfl | rfl | rfl) h <;> cases h
  refine ⟨hchar, hterm, hterm _ _ (Or.inl rfl), ?_⟩
  intro rest htrace
  rcases rest with _ | ⟨x, xs⟩
  · decide
  · exact absurd (List.chain'_cons.mp (List.chain'_cons.mp htrace).2).1
      (hterm _ _ (Or.inr (Or.inr rfl)))

/-- Witness for C7: terminal `completed` admits no step to `running`,
and the two-entry history of a job cancelled while queued never shows
`running`. -/
theorem scanStep_state_machine_witness :
    (¬ ScanStep .completed .running) ∧
    ScanStatus.running ∉ ([.queued, .cancelled] : List ScanStatus) :=
  ⟨scanStep_state_machine.2.1 .completed .running (Or.inl rfl),
    scanStep_state_machine.2.2.2 []
      (List.chain'_cons.mpr ⟨.cancelQueued, List.chain'_singleton _⟩)⟩

/-! ### Claim C1 -/

/-- C1: for every (template, config) pair — with the remaining inputs
passing their own checks — `validateConfig` returns `valid = true`
with an empty error list exactly if every required variable declared
by the template has a non-empty value in the config; and whenever
some declared required variable has no non-empty value it returns
`valid = false` with an error naming that variable, unconditionally. -/
theorem validateConfig_required_vars (clientName targetSubnet : String)
    (tmpl : TemplateInfo) (cfg : ConfigModel) :
    ((∀ v ∈ tmpl.requiredVars, hasNonEmptyValue cfg v = true) →
      clientName.data ≠ [] →
      clientName.data.length ≤ maxClientNameLength →
      isValidSubnet targetSubnet.data = true →
      (∀ p ∈ cfg.vars, hasUnsafeShellChars p.2 = false) →
      (∀ d ∈ cfg.dnsServers, isValidIp d.data = true) →
      (validateConfig clientName targetSubnet tmpl cfg).valid = true ∧
      (validateConfig clientName targetSubnet tmpl cfg).errors = []) ∧
    (∀ v ∈ tmpl.requiredVars, hasNonEmptyValue cfg v = false →
      (validateConfig clientName targetSubnet tmpl cfg).valid = false ∧
      ("Missing required variable: " ++ v) ∈
        (validateConfig clientName targetSubnet tmpl cfg).errors) := by
  constructor
  · intro hsup hcn hlen hsubnet hsafe hdns
    have hmiss : missingRequiredVars tmpl cfg = [] := by
      rw [missingRequiredVars, List.filter_eq_nil_iff]
      intro v hv
      simp [hsup v hv]
    have hunsafe : cfg.vars.filter (fun p => hasUnsafeShellChars p.2) = [] := by
      rw [List.filter_eq_nil_iff]
      intro p hp
      simp [hsafe p hp]
    have hdns' : cfg.dnsServers.filter (fun d => !isValidIp d.data) = [] := by
      rw [List.filter_eq_nil_iff]
      intro d hd
      simp [hdns d hd]
    have hlen2 : ¬ (maxClientNameLength < clientName.length) := Nat.not_lt.mpr hlen
    have herrs : validationErrors clientName targetSubnet tmpl cfg = [] := by
      simp [validationErrors, hcn, hlen2, hsubnet, hmiss, hunsafe, hdns']
    exact ⟨by simp [validateConfig, herrs], by simp [validateConfig, herrs]⟩
  · intro v hv hmissing
    have hmem : v ∈ missingRequiredVars tmpl cfg := by
      rw [missingRequiredVars, List.mem_filter]
      exact ⟨hv, by simp [hmissing]⟩
    have herr : ("Missing required variable: " ++ v) ∈
        validationErrors clientName targetSubnet tmpl cfg := by
      rw [validationErrors]
      refine List.mem_append.mpr (Or.inl ?_)
      refine List.mem_append.mpr (Or.inl ?_)
      refine List.mem_append.mpr (Or.inr ?_)
      exact List.mem_map_of_mem _ hmem
    refine ⟨?_, herr⟩
    have hne : validationErrors clientName targetSubnet tmpl cfg ≠ [] :=
      List.ne_nil_of_mem herr
    simp [validateConfig, List.isEmpty_eq_false.mpr hne]

/-- Witness for C1: a template requiring `CLIENT_NAME`, which the
config supplies non-empty, validates cleanly. -/
theorem validateConfig_required_vars_witness :
    (validateConfig ("Acme") ("10.0.0.0/24")
      ⟨"base", "Base provisioning", "provisioning", ["CLIENT_NAME"], "templates/base.ps1"⟩
      ⟨[(("CLIENT_NAME"), ("Acme Corp"))], []⟩).valid = true ∧
    (validateConfig ("Acme") ("10.0.0.0/24")
      ⟨"base", "Base provisioning", "provisioning", ["CLIENT_NAME"], "templates/base.ps1"⟩
      ⟨[(("CLIENT_NAME"), ("Acme Corp"))], []⟩).errors = [] :=
  (validateConfig_required_vars ("Acme") ("10.0.0.0/24")
      ⟨"base", "Base provisioning", "provisioning", ["CLIENT_NAME"], "templates/base.ps1"⟩
      ⟨[(("CLIENT_NAME"), ("Acme Corp"))], []⟩).1
    (by decide) (by decide) (by decide) (by decide) (by decide) (by decide)

/-! ### Claim C2 -/

/-- C2: whenever any config value destined for shell interpolation
contains an unescaped shell metacharacter (embedded quote, backtick,
or `$(` substitution), `validateConfig` returns a result with
`valid = false` and a non-empty error list carrying an error naming
the offending variable; the configuration itself is never mutated —
`validateConfig` returns only the structured result, so rejection,
not silent sanitization, is the only possible outcome. -/
theorem validateConfig_rejects_unsafe_values (clientName targetSubnet : String)
    (tmpl : TemplateInfo) (cfg : ConfigModel) (name value : String) :
    (name, value) ∈ cfg.vars → hasUnsafeShellChars value = true →
    (validateConfig clientName targetSubnet tmpl cfg).valid = false ∧
    (validateConfig clientName targetSubnet tmpl cfg).errors ≠ [] ∧
    ("Unsafe shell characters in value of variable: " ++ name) ∈
      (validateConfig clientName targetSubnet tmpl cfg).errors := by
  intro hmem hunsafe
  have hflt : (name, value) ∈ cfg.vars.filter (fun p => hasUnsafeShellChars p.2) :=
    List.mem_filter.mpr ⟨hmem, hunsafe⟩
  have herr : ("Unsafe shell characters in value of variable: " ++ name) ∈
      validationErrors clientName targetSubnet tmpl cfg := by
    rw [validationErrors]
    refine List.mem_append.mpr (Or.inl ?_)
    refine List.mem_append.mpr (Or.inr ?_)
    exact List.mem_map_of_mem _ hflt
  have hne : validationErrors clientName targetSubnet tmpl cfg ≠ [] :=
    List.ne_nil_of_mem herr
  exact ⟨by simp [validateConfig, List.isEmpty_eq_false.mpr hne],
    by simp [validateConfig, hne], herr⟩

/-- Witness for C2: a config value embedding a `$(...)` command
substitution is rejected. -/
theorem validateConfig_rejects_unsafe_values_witness :
    (validateConfig ("Acme") ("10.0.0.0/24")
      ⟨"base", "Base provisioning", "provisioning", [], "templates/base.ps1"⟩
      ⟨[(("CUSTOM_CMD"), ("echo $(hostname)"))], []⟩).valid = false ∧
    (validateConfig ("Acme") ("10.0.0.0/24")
      ⟨"base", "Base provisioning", "provisioning", [], "templates/base.ps1"⟩
      ⟨[(("CUSTOM_CMD"), ("echo $(hostname)"))], []⟩).errors ≠ [] ∧
    ("Unsafe shell characters in value of variable: CUSTOM_CMD") ∈
      (validateConfig ("Acme") ("10.0.0.0/24")
        ⟨"base", "Base provisioning", "provisioning", [], "templates/base.ps1"⟩
        ⟨[(("CUSTOM_CMD"), ("echo $(hostname)"))], []⟩).errors :=
  validateConfig_rejects_unsafe_values ("Acme") ("10.0.0.0/24")
    ⟨"base", "Base provisioning", "provisioning", [], "templates/base.ps1"⟩
    ⟨[(("CUSTOM_CMD"), ("echo $(hostname)"))], []⟩
    ("CUSTOM_CMD") ("echo $(hostname)") (by decide) (by decide)

/-! ### Claim C5 -/

/-- C5: `generateAgentScript` accepts requests with no `authToken`;
for every such request (with a valid client IP and port) it uses the
engine-generated token, embeds that same token in the returned
`scriptContent`, and returns a warnings list consisting of the notice
that the token was engine-generated — the warning is never omitted
when the token was not caller-supplied. -/
theorem generateAgentScript_absent_token (clientIp : String)
    (callbackPort : Nat) (useTls : Bool) (heartbeatInterval : Nat)
    (freshToken scriptId now : String) :
    isValidIp clientIp.data = true → 1 ≤ callbackPort → callbackPort ≤ 65535 →
    ∃ r : AgentScriptResponse,
      generateAgentScript clientIp none callbackPort useTls heartbeatInterval
        freshToken scriptId now = .ok r ∧
      r.success = true ∧
      r.warnings = [tokenGeneratedWarning] ∧
      ∃ pre post, r.scriptContent = pre ++ freshToken ++ post := by
  intro hip hlo hhi
  refine ⟨⟨true,
      agentScriptHeader ++ freshToken ++
        agentScriptTail clientIp callbackPort useTls heartbeatInterval,
      scriptId, now, [tokenGeneratedWarning]⟩, ?_, rfl, rfl,
    agentScriptHeader, agentScriptTail clientIp callbackPort useTls heartbeatInterval,
    rfl⟩
  simp [generateAgentScript, hip, hlo, hhi]

/-- Witness for C5 at a concrete request with no auth token. -/
theorem generateAgentScript_absent_token_witness :
    ∃ r : AgentScriptResponse,
      generateAgentScript ("10.0.0.5") none 443 true 30
        ("tok-1f2e3d4c") ("script-001") ("2026-01-01T00:00:00Z") = .ok r ∧
      r.success = true ∧
      r.warnings = [tokenGeneratedWarning] ∧
      ∃ pre post, r.scriptContent = pre ++ ("tok-1f2e3d4c") ++ post :=
  generateAgentScript_absent_token ("10.0.0.5") 443 true 30
    ("tok-1f2e3d4c") ("script-001") ("2026-01-01T00:00:00Z")
    (by decide) (by decide) (by decide)

/-! ### Claim C6 -/

/-- C6: merging a `DiscoveredHost` into an existing `Asset` leaves
`firstSeen` and the operator-set `category`, `criticality` and `owner`
fields unchanged, advances `lastSeen` to the scan's timestamp (and
never regresses it), and produces a service list that is exactly the
union of the old services and the newly observed ones keyed by
(port, protocol): every port observed this scan appears with its
newly observed state, every previously known service whose key was not
re-probed is retained unchanged, no service appears that is in
neither source, every merged entry whose key was re-probed this scan
is one of the new observations (state updated for re-observed ports),
and consequently a previously known service whose key was re-probed
but whose record differs from every new observation is gone from the
merged list — stale state on a re-observed key never survives. -/
theorem mergeHost_union_and_sticky_fields (a : Asset) (h : DiscoveredHost)
    (scanTime : Nat) (scanId : String) :
    (mergeHost a h scanTime scanId).firstSeen = a.firstSeen ∧
    (mergeHost a h scanTime scanId).category = a.category ∧
    (mergeHost a h scanTime scanId).criticality = a.criticality ∧
    (mergeHost a h scanTime scanId).owner = a.owner ∧
    (a.lastSeen ≤ scanTime → (mergeHost a h scanTime scanId).lastSeen = scanTime) ∧
    a.lastSeen ≤ (mergeHost a h scanTime scanId).lastSeen ∧
    (∀ p ∈ h.ports, toAssetService p ∈ (mergeHost a h scanTime scanId).services) ∧
    (∀ s ∈ a.services, reobserved h s = false →
      s ∈ (mergeHost a h scanTime scanId).services) ∧
    (∀ s ∈ (mergeHost a h scanTime scanId).services,
      (∃ p ∈ h.ports, toAssetService p = s) ∨ s ∈ a.services) ∧
    (∀ s ∈ (mergeHost a h scanTime scanId).services, reobserved h s = true →
      ∃ p ∈ h.ports, toAssetService p = s) ∧
    (∀ s ∈ a.services, reobserved h s = true →
      (∀ p ∈ h.ports, toAssetService p ≠ s) →
      s ∉ (mergeHost a h scanTime scanId).services) := by
  have hrepl : ∀ s ∈ (mergeHost a h scanTime scanId).services,
      reobserved h s = true → ∃ p ∈ h.ports, toAssetService p = s := by
    intro s hs hre
    simp only [mergeHost] at hs
    rcases List.mem_append.mp hs with hnew | hold
    · obtain ⟨p, hp, hps⟩ := List.mem_map.mp hnew
      exact ⟨p, hp, hps⟩
    · have hfalse := (List.mem_filter.mp hold).2
      rw [hre] at hfalse
      simp at hfalse
  refine ⟨rfl, rfl, rfl, rfl, fun hle => ?_, ?_, ?_, ?_, ?_, hrepl, ?_⟩
  · simp only [mergeHost]
    exact Nat.max_eq_right hle
  · exact Nat.le_max_left _ _
  · intro p hp
    simp only [mergeHost]
    exact List.mem_append_left _ (List.mem_map_of_mem _ hp)
  · intro s hs hnotre
    simp only [mergeHost]
    refine List.mem_append_right _ (List.mem_filter.mpr ⟨hs, ?_⟩)
    simp [hnotre]
  · intro s hs
    simp only [mergeHost] at hs
    rcases List.mem_append.mp hs with hnew | hold
    · obtain ⟨p, hp, hps⟩ := List.mem_map.mp hnew
      exact Or.inl ⟨p, hp, hps⟩
    · exact Or.inr (List.mem_filter.mp hold).1
  · intro s _ hre hnone hmem
    obtain ⟨p, hp, hps⟩ := hrepl s hmem hre
    exact hnone p hp hps

/-- Witness for C6: a concrete asset with an operator-set category,
criticality and owner merged with a host observed later that
re-probes port 22 with a changed state (filtered) and adds port 443:
`lastSeen` advances, the new observations are present, the
non-re-probed port 8080 service is retained, and the stale port-22
record with the old state is gone from the merged list. -/
theorem mergeHost_union_and_sticky_fields_witness :
    (mergeHost
      ⟨"asset-1", "client-1", "db01", "10.0.0.7", none, .server, none,
        .high, .active, none, some ("ops team"), none,
        [⟨22, .tcp, "ssh", none, .opened⟩, ⟨8080, .tcp, "http", none, .opened⟩],
        [], 100, 100, ["scan-1"]⟩
      ⟨"10.0.0.7", none, none, none, "up",
        [⟨22, .tcp, .filtered, some ("ssh"), none, none, none⟩,
         ⟨443, .tcp, .opened, some ("https"), none, none, none⟩], []⟩
      200 ("scan-2")).lastSeen = 200 ∧
    toAssetService ⟨22, .tcp, .filtered, some ("ssh"), none, none, none⟩ ∈
      (mergeHost
        ⟨"asset-1", "client-1", "db01", "10.0.0.7", none, .server, none,
          .high, .active, none, some ("ops team"), none,
          [⟨22, .tcp, "ssh", none, .opened⟩, ⟨8080, .tcp, "http", none, .opened⟩],
          [], 100, 100, ["scan-1"]⟩
        ⟨"10.0.0.7", none, none, none, "up",
          [⟨22, .tcp, .filtered, some ("ssh"), none, none, none⟩,
           ⟨443, .tcp, .opened, some ("https"), none, none, none⟩], []⟩
        200 ("scan-2")).services ∧
    (⟨8080, .tcp, "http", none, .opened⟩ : AssetService) ∈
      (mergeHost
        ⟨"asset-1", "client-1", "db01", "10.0.0.7", none, .server, none,
          .high, .active, none, some ("ops team"), none,
          [⟨22, .tcp, "ssh", none, .opened⟩, ⟨8080, .tcp, "http", none, .opened⟩],
          [], 100, 100, ["scan-1"]⟩
        ⟨"10.0.0.7", none, none, none, "up",
          [⟨22, .tcp, .filtered, some ("ssh"), none, none, none⟩,
           ⟨443, .tcp, .opened, some ("https"), none, none, none⟩], []⟩
        200 ("scan-2")).services ∧
    (⟨22, .tcp, "ssh", none, .opened⟩ : AssetService) ∉
      (mergeHost
        ⟨"asset-1", "client-1", "db01", "10.0.0.7", none, .server, none,
          .high, .active, none, some ("ops team"), none,
          [⟨22, .tcp, "ssh", none, .opened⟩, ⟨8080, .tcp, "http", none, .opened⟩],
          [], 100, 100, ["scan-1"]⟩
        ⟨"10.0.0.7", none, none, none, "up",
          [⟨22, .tcp, .filtered, some ("ssh"), none, none, none⟩,
           ⟨443, .tcp, .opened, some ("https"), none, none, none⟩], []⟩
        200 ("scan-2")).services :=
  ⟨(mergeHost_union_and_sticky_fields _ _ 200 ("scan-2")).2.2.2.2.1 (by decide),
    (mergeHost_union_and_sticky_fields _ _ 200 ("scan-2")).2.2.2.2.2.2.1
      ⟨22, .tcp, .filtered, some ("ssh"), none, none, none⟩ (by decide),
    (mergeHost_union_and_sticky_fields _ _ 200 ("scan-2")).2.2.2.2.2.2.2.1
      ⟨8080, .tcp, "http", none, .opened⟩ (by decide) (by decide),
    (mergeHost_union_and_sticky_fields _ _ 200 ("scan-2")).2.2.2.2.2.2.2.2.2.2
      ⟨22, .tcp, "ssh", none, .opened⟩ (by decide) (by decide) (by decide)⟩

end Optio
